import Mathlib

/-!
# Verification of `home_alerts_gmail.py`

A shallow embedding of the presence-detection daemon in
`src/home_alerts_gmail.py`, together with theorems settling the
specification claims about it.

Conventions of the embedding:

* Python floats are modelled as real numbers (`ℝ`) inside the haversine
  computation and as rationals (`ℚ`) elsewhere (every IEEE float is a
  rational, and the program only compares distances against integer
  thresholds).
* The persisted JSON state is modelled by an inductive `Json` type
  (`null`/`bool`/`num`/`str`/`obj`), because `load_state` returns whatever
  `json.load` parsed, with no shape validation.
* The presence tri-state of the spec maps to the code's `bool | None`:
  `some true` = Home, `some false` = Away, `none` = Unknown.
* One iteration of the `while True:` loop body (lines 112-146) is embedded
  as a pure function from the collaborator outcomes (fetch result, email
  environment/SMTP outcome, save success) and the in-memory state to a
  `CycleRes` trace: final in-memory state, emails emitted, completed state
  saves, and the exception (if any) that escapes the loop body.  An
  escaping exception terminates `main`, because the `try` at line 113
  covers only `query_latest_latlng()`.
-/

namespace HomeAlerts

/-! ## Configuration constants (source lines 10-16) -/

def HOME_LAT : ℚ := 34.02877

def HOME_LNG : ℚ := -118.27968

def HOME_RADIUS_M : ℚ := 120

def HYSTERESIS_M : ℚ := 30

/-! ## JSON values

`json.load` can return any JSON value; the daemon's own saves produce the
object `{"in_home": true|false|null, "last_ts": <int>}`.  JSON arrays are
not needed by any claim and are omitted; strings already witness the
"well-formed JSON that is not an object" cases. -/

inductive Json : Type where
  | null : Json
  | bool (b : Bool) : Json
  | num (q : ℚ) : Json
  | str (s : String) : Json
  | obj (kvs : List (String × Json)) : Json

/-- The JSON value the daemon persists for a presence value
(`None`/`True`/`False` in Python). -/
def presenceJson : Option Bool → Json
  | none => Json.null
  | some b => Json.bool b

/-- The well-formed state object `{"in_home": p, "last_ts": t}` as written
by `save_state` and read back by `json.load`. -/
def stateJson (p : Option Bool) (t : ℤ) : Json :=
  Json.obj [("in_home", presenceJson p), ("last_ts", Json.num (t : ℚ))]

/-- Python's `x is True` / `x is False` identity checks on a JSON-loaded
value: only the booleans `True`/`False` pass; everything else falls to the
`else` branch (same as `None`). -/
def asPyBool : Json → Option Bool
  | Json.bool b => some b
  | _ => none

/-! ## `decide_in_home` (source lines 92-106) -/

/-- Hysteresis decision, exactly as in the source: from Home (`some true`)
stay iff `dist_m ≤ HOME_RADIUS_M + HYSTERESIS_M`; from Away (`some false`)
or Unknown (`none`) enter iff `dist_m ≤ HOME_RADIUS_M`. -/
def decide_in_home (prev_in_home : Option Bool) (dist_m : ℚ) : Bool :=
  let enter_thresh := HOME_RADIUS_M
  let exit_thresh := HOME_RADIUS_M + HYSTERESIS_M
  match prev_in_home with
  | some true => decide (dist_m ≤ exit_thresh)
  | some false => decide (dist_m ≤ enter_thresh)
  | none => decide (dist_m ≤ enter_thresh)

/-- C1: The hysteresis transition table.
From Home the result is Home iff `d ≤ exitRadius` (`= enterRadius +
hysteresisMargin = 150`); from Away, Home iff `d ≤ enterRadius` (`= 120`);
from Unknown the result coincides with the result from Away. -/
theorem decide_in_home_table (d : ℚ) :
    (decide_in_home (some true) d = true ↔ d ≤ HOME_RADIUS_M + HYSTERESIS_M) ∧
    (decide_in_home (some false) d = true ↔ d ≤ HOME_RADIUS_M) ∧
    decide_in_home none d = decide_in_home (some false) d ∧
    HOME_RADIUS_M + HYSTERESIS_M = 150 ∧ HOME_RADIUS_M = 120 := by
  refine ⟨?_, ?_, rfl, by norm_num [HOME_RADIUS_M, HYSTERESIS_M], rfl⟩ <;>
    simp [decide_in_home]

/-! ## `send_email` (source lines 24-37)

The whole SMTP interaction sits inside `try ... except Exception`, and a
missing credential environment short-circuits with a log line; in every
case the function returns normally.  It is therefore embedded as a *total*
function from the collaborator outcomes to an `EmailOutcome`. -/

inductive EmailOutcome : Type where
  | sent : EmailOutcome
  | skippedNoEnv : EmailOutcome
  | smtpError : EmailOutcome
deriving DecidableEq

/-- `envOk` = all of `GMAIL_USER`/`GMAIL_PASS`/`TO_EMAIL` are set;
`smtpOk` = the SMTP session succeeds.  Mirrors lines 24-37: missing env
returns after a log line, an SMTP exception is caught and logged. -/
def send_email (envOk smtpOk : Bool) : EmailOutcome :=
  if ¬envOk then EmailOutcome.skippedNoEnv
  else if smtpOk then EmailOutcome.sent
  else EmailOutcome.smtpError

/-! ## `haversine_m` (source lines 40-46) -/

/-- Great-circle distance in metres, translated term by term from the
source (floats modelled as reals). -/
noncomputable def haversine_m (lat1 lon1 lat2 lon2 : ℝ) : ℝ :=
  let R : ℝ := 6371000.0
  let to_rad : ℝ := Real.pi / 180.0
  let dlat := (lat2 - lat1) * to_rad
  let dlon := (lon2 - lon1) * to_rad
  let a := Real.sin (dlat / 2) ^ 2 +
    Real.cos (lat1 * to_rad) * Real.cos (lat2 * to_rad) * Real.sin (dlon / 2) ^ 2
  2 * R * Real.arcsin (Real.sqrt a)

/-- Python's `int()` on a float: truncation toward zero. -/
noncomputable def int_trunc (x : ℝ) : ℤ :=
  if 0 ≤ x then ⌊x⌋ else ⌈x⌉

/-! ## State store: `load_state` / `save_state` (source lines 51-61)

The state file's content is modelled abstractly: `holds j` means the file
parses as the JSON value `j`; `absent` and `unreadable` cover a missing
file, an IO error and a JSON decode error - all caught by the blanket
`except Exception` in `load_state`. -/

inductive FileContent : Type where
  | absent : FileContent
  | unreadable : FileContent
  | holds (j : Json) : FileContent

/-- `load_state` returns whatever `json.load` parsed, unvalidated; any
exception (missing file, IO error, corrupt JSON) yields the default
`{"in_home": None, "last_ts": 0}`.  Totality of this function is the
embedding of "never raises to the caller". -/
def load_state : FileContent → Json
  | FileContent.holds j => j
  | _ => Json.obj [("in_home", Json.null), ("last_ts", Json.num 0)]

/-- The two files `save_state` touches: the canonical `STATE_FILE` and the
temporary `STATE_FILE + ".tmp"`. -/
structure FS : Type where
  canonical : FileContent
  tmp : FileContent

/-- The primitive filesystem operations `save_state` performs, each atomic
at the level of one path: writing the temp file (line 60) and
`os.replace`, the atomic rename over the canonical path (line 61). -/
inductive SaveStep : Type where
  | writeTmp (c : FileContent) : SaveStep
  | rename : SaveStep

def applyStep (fs : FS) : SaveStep → FS
  | SaveStep.writeTmp c => ⟨fs.canonical, c⟩
  | SaveStep.rename => ⟨fs.tmp, FileContent.absent⟩

def runSteps (fs : FS) (l : List SaveStep) : FS :=
  l.foldl applyStep fs

/-- `save_state s` as its sequence of primitive steps: dump `s` to the
temp path, then atomically replace the canonical path with it. -/
def save_state (s : Json) : List SaveStep :=
  [SaveStep.writeTmp (FileContent.holds s), SaveStep.rename]

/-! ## Poll cycle (source lines 112-146)

One iteration of the `while True:` body.  The telemetry fetch (lines
113-116) is the only statement inside the per-cycle `try`; a fetch
exception or an empty result ends the cycle with a log line.  Everything
from line 121 on runs unprotected: an exception there escapes `main`. -/

/-- The row returned by `query_latest_latlng` (built at line 90, always
with these three typed fields). -/
structure Obs : Type where
  ts : ℤ
  lat : ℚ
  lng : ℚ

/-- The four distinct messages the loop can emit (lines 132, 134, 137,
139).  The two announcements (first accepted observation, `prev is None`)
are distinct messages from the two transition notifications: their bodies
differ ("is at/away from home" vs "just left/arrived"). -/
inductive Msg : Type where
  | atHomeAnnounce : Msg
  | leftHomeAnnounce : Msg
  | leftHomeTransition : Msg
  | backHomeTransition : Msg
deriving DecidableEq

/-- The email subject line of each message; note the Away announcement
shares the subject "Left Home" with the Home-to-Away transition while
being a different message. -/
def subjectOf : Msg → String
  | Msg.atHomeAnnounce => "At Home"
  | Msg.leftHomeAnnounce => "Left Home"
  | Msg.leftHomeTransition => "Left Home"
  | Msg.backHomeTransition => "Back Home"

/-- Exceptions that can escape the unprotected part of the loop body. -/
inductive PyErr : Type where
  | attributeError : PyErr
  | typeError : PyErr
  | osError : PyErr
deriving DecidableEq

/-- Trace of one loop iteration: in-memory state afterwards, the
`send_email` calls made (message plus outcome), the states successfully
persisted by `save_state`, and the exception escaping the loop body, if
any. -/
structure CycleRes : Type where
  st : Json
  emails : List (Msg × EmailOutcome)
  saves : List Json
  err : Option PyErr

/-- Python's `ts_ms > state.get("last_ts", 0)` (line 128): an `int` is
comparable with JSON numbers and booleans (`True == 1`), and raises
`TypeError` against anything else. -/
def pyCmpGt (ts : ℤ) : Json → Except PyErr Bool
  | Json.num q => Except.ok (decide (q < (ts : ℚ)))
  | Json.bool b => Except.ok (decide ((if b then (1 : ℚ) else 0) < (ts : ℚ)))
  | _ => Except.error PyErr.typeError

/-- Python dict item assignment on an association list: replace the first
binding of `k` in place, else append. -/
def setKey (kvs : List (String × Json)) (k : String) (v : Json) :
    List (String × Json) :=
  match kvs with
  | [] => [(k, v)]
  | (k', v') :: rest =>
      if k' = k then (k, v) :: rest else (k', v') :: setKey rest k v

/-- Lines 121-146 given the already-computed truncated distance `dist` and
the observation timestamp `ts_ms`.  `state.get` (line 123) raises
`AttributeError` unless the loaded state is a dict; that exception is
outside the per-cycle `try` and escapes the loop. -/
def pollCycleD (envOk smtpOk saveOk : Bool) (dist : ℤ) (ts_ms : ℤ)
    (st : Json) : CycleRes :=
  match st with
  | Json.obj kvs =>
      let prev := ((kvs.lookup "in_home").getD Json.null)
      let new_in := decide_in_home (asPyBool prev) (dist : ℚ)
      let lastJ := ((kvs.lookup "last_ts").getD (Json.num 0))
      match pyCmpGt ts_ms lastJ with
      | Except.error e => ⟨st, [], [], some e⟩
      | Except.ok false => ⟨st, [], [], none⟩
      | Except.ok true =>
          let emails :=
            match prev with
            | Json.null =>
                [((if new_in then Msg.atHomeAnnounce else Msg.leftHomeAnnounce),
                  send_email envOk smtpOk)]
            | Json.bool true =>
                if new_in then []
                else [(Msg.leftHomeTransition, send_email envOk smtpOk)]
            | Json.bool false =>
                if new_in then [(Msg.backHomeTransition, send_email envOk smtpOk)]
                else []
            | _ => []
          let st2 := Json.obj
            (setKey (setKey kvs "in_home" (Json.bool new_in)) "last_ts"
              (Json.num (ts_ms : ℚ)))
          if saveOk then ⟨st2, emails, [st2], none⟩
          else ⟨st2, emails, [], some PyErr.osError⟩
  | _ => ⟨st, [], [], some PyErr.attributeError⟩

/-- One full iteration of the loop body (lines 112-146).  `fetch` is the
outcome of `query_latest_latlng`: `Except.error` for an exception (caught
at line 115), `ok none` for "no data yet" (line 118), `ok (some row)` for
an observation.  The distance fed to the decision is the haversine
distance to the fixed home point truncated by Python's `int()`
(line 122). -/
noncomputable def pollCycle (fetch : Except Unit (Option Obs))
    (envOk smtpOk saveOk : Bool) (st : Json) : CycleRes :=
  match fetch with
  | Except.error _ => ⟨st, [], [], none⟩
  | Except.ok none => ⟨st, [], [], none⟩
  | Except.ok (some row) =>
      pollCycleD envOk smtpOk saveOk
        (int_trunc (haversine_m (row.lat : ℝ) (row.lng : ℝ) (HOME_LAT : ℝ)
          (HOME_LNG : ℝ)))
        row.ts st

/-- Modelled from the spec: the notification policy table of section 4.2
(first accepted observation announces current status; afterwards only the
two transitions notify). -/
def specNotifications (prev : Option Bool) (next : Bool) : List Msg :=
  match prev with
  | none => [if next then Msg.atHomeAnnounce else Msg.leftHomeAnnounce]
  | some true => if next then [] else [Msg.leftHomeTransition]
  | some false => if next then [Msg.backHomeTransition] else []

/-! ## Helper lemmas -/

lemma asPyBool_presenceJson (p : Option Bool) : asPyBool (presenceJson p) = p := by
  cases p <;> rfl

/-- A cycle whose observation timestamp is not newer than the stored
`last_ts` does nothing, for every possible distance value. -/
lemma pollCycleD_stale (e s k : Bool) (d ts t : ℤ) (p : Option Bool)
    (h : ts ≤ t) :
    pollCycleD e s k d ts (stateJson p t) = ⟨stateJson p t, [], [], none⟩ := by
  have hq : ¬ ((t : ℚ) < (ts : ℚ)) := by exact_mod_cast not_lt.2 h
  simp [pollCycleD, stateJson, pyCmpGt, List.lookup, hq]

/-- A cycle with a strictly newer observation runs the decision, emits the
policy's notifications, and attempts the save of the updated state. -/
lemma pollCycleD_accepted (e s k : Bool) (d ts t : ℤ) (p : Option Bool)
    (h : t < ts) :
    pollCycleD e s k d ts (stateJson p t) =
      ⟨stateJson (some (decide_in_home p (d : ℚ))) ts,
       (specNotifications p (decide_in_home p (d : ℚ))).map
         (fun m => (m, send_email e s)),
       if k then [stateJson (some (decide_in_home p (d : ℚ))) ts] else [],
       if k then none else some PyErr.osError⟩ := by
  have hq : ((t : ℚ) < (ts : ℚ)) := by exact_mod_cast h
  cases p with
  | none =>
      cases k <;>
        simp [pollCycleD, stateJson, presenceJson, pyCmpGt, List.lookup, hq,
          setKey, specNotifications, asPyBool]
  | some b =>
      cases b <;> cases k <;>
        cases hnw : decide_in_home (some true) (d : ℚ) <;>
        cases hnw' : decide_in_home (some false) (d : ℚ) <;>
          simp [pollCycleD, stateJson, presenceJson, pyCmpGt, List.lookup, hq,
            setKey, specNotifications, asPyBool, hnw, hnw']

lemma haversine_self (x y : ℝ) : haversine_m x y x y = 0 := by
  simp [haversine_m]

/-! ## Claim theorems -/

/-- C9: the distance function is symmetric in its two coordinate pairs,
zero on the diagonal, and non-negative everywhere (exact statements in the
real-number model of float arithmetic). -/
theorem haversine_m_symm_diag_nonneg :
    (∀ a b c d : ℝ, haversine_m a b c d = haversine_m c d a b) ∧
    (∀ a b : ℝ, haversine_m a b a b = 0) ∧
    (∀ a b c d : ℝ, 0 ≤ haversine_m a b c d) := by
  refine ⟨?_, fun a b => haversine_self a b, ?_⟩
  · intro a b c d
    have key : ∀ u v w : ℝ,
        Real.sin ((u - v) * w / 2) ^ 2 = Real.sin ((v - u) * w / 2) ^ 2 := by
      intro u v w
      rw [show (u - v) * w / 2 = -((v - u) * w / 2) by ring, Real.sin_neg]
      ring
    simp only [haversine_m]
    rw [key a c, key b d, mul_comm (Real.cos (a * (Real.pi / 180.0)))]
  · intro a b c d
    simp only [haversine_m]
    exact mul_nonneg (by norm_num)
      (Real.arcsin_nonneg.2 (Real.sqrt_nonneg _))

/-- C5: `save_state` is atomic.  After any prefix of its primitive steps
(write the temp file, then atomically rename it over the canonical path),
the canonical path holds either the complete old state or the complete new
state — never a partial or mixed write, even if the process crashes
between the two steps. -/
theorem save_state_atomic (old s : Json) (fs : FS) (n : ℕ)
    (h : fs.canonical = FileContent.holds old) :
    (runSteps fs ((save_state s).take n)).canonical = FileContent.holds old ∨
    (runSteps fs ((save_state s).take n)).canonical = FileContent.holds s := by
  match n with
  | 0 => exact Or.inl (by simpa [runSteps, save_state] using h)
  | 1 => exact Or.inl (by simpa [runSteps, save_state, applyStep] using h)
  | (n + 2) => exact Or.inr (by simp [runSteps, save_state, applyStep])

theorem save_state_atomic_witness :
    (FS.mk (FileContent.holds (Json.num 1)) FileContent.absent).canonical =
      FileContent.holds (Json.num 1) ∧
    ((runSteps (FS.mk (FileContent.holds (Json.num 1)) FileContent.absent)
        ((save_state (Json.num 2)).take 1)).canonical =
          FileContent.holds (Json.num 1) ∨
     (runSteps (FS.mk (FileContent.holds (Json.num 1)) FileContent.absent)
        ((save_state (Json.num 2)).take 1)).canonical =
          FileContent.holds (Json.num 2)) :=
  ⟨rfl, save_state_atomic (Json.num 1) (Json.num 2)
    (FS.mk (FileContent.holds (Json.num 1)) FileContent.absent) 1 rfl⟩

/-- C7: `load_state` is total (the blanket `except Exception` means it
never raises to its caller); it returns the default
`{"in_home": None, "last_ts": 0}` state when the file is absent,
unreadable or corrupt, and returns the parsed state whenever the file
holds one. -/
theorem load_state_spec :
    load_state FileContent.absent = stateJson none 0 ∧
    load_state FileContent.unreadable = stateJson none 0 ∧
    ∀ j : Json, load_state (FileContent.holds j) = j := by
  refine ⟨?_, ?_, fun j => rfl⟩ <;> simp [load_state, stateJson, presenceJson]

/-- C2: the monotonic timestamp guard.  A cycle whose observation is not
strictly newer than the stored `last_ts` emits no notification, performs
no state-file write and leaves the state unchanged; and every state the
cycle ever saves carries `last_ts = row.ts`, strictly greater than the
stored value — so the persisted `last_ts` increases strictly across
writes and only accepted observations change the persisted presence. -/
theorem cycle_timestamp_guard (row : Obs) (p : Option Bool) (t : ℤ)
    (e s k : Bool) :
    (row.ts ≤ t →
      pollCycle (Except.ok (some row)) e s k (stateJson p t) =
        ⟨stateJson p t, [], [], none⟩) ∧
    (∀ w ∈ (pollCycle (Except.ok (some row)) e s k (stateJson p t)).saves,
      (∃ b : Bool, w = stateJson (some b) row.ts) ∧ t < row.ts) := by
  constructor
  · intro h
    simp only [pollCycle]
    exact pollCycleD_stale e s k _ row.ts t p h
  · intro w hw
    simp only [pollCycle] at hw
    rcases lt_or_le t row.ts with h | h
    · rw [pollCycleD_accepted e s k _ row.ts t p h] at hw
      cases k with
      | false => simp at hw
      | true =>
          simp at hw
          exact ⟨⟨decide_in_home p _, hw⟩, h⟩
    · rw [pollCycleD_stale e s k _ row.ts t p h] at hw
      simp at hw

theorem cycle_timestamp_guard_witness :
    (Obs.mk 3 0 0).ts ≤ 3 ∧
    pollCycle (Except.ok (some (Obs.mk 3 0 0))) true true true
      (stateJson (some true) 3) = ⟨stateJson (some true) 3, [], [], none⟩ :=
  ⟨by decide,
    (cycle_timestamp_guard (Obs.mk 3 0 0) (some true) 3 true true true).1
      (by decide)⟩

/-- C4: the notification policy.  On an accepted observation the messages
emitted are exactly those of the spec's policy table: one status
announcement when `prev` is Unknown, one transition message on
Home-to-Away or Away-to-Home, nothing when the state is unchanged. -/
theorem cycle_notification_policy (row : Obs) (p : Option Bool) (t : ℤ)
    (e s k : Bool) (h : t < row.ts) :
    (pollCycle (Except.ok (some row)) e s k (stateJson p t)).emails =
      (specNotifications p (decide_in_home p
        ((int_trunc (haversine_m (row.lat : ℝ) (row.lng : ℝ) (HOME_LAT : ℝ)
          (HOME_LNG : ℝ))) : ℚ))).map (fun m => (m, send_email e s)) := by
  simp only [pollCycle]
  rw [pollCycleD_accepted e s k _ row.ts t p h]

theorem cycle_notification_policy_witness :
    (0 : ℤ) < (Obs.mk 1 0 0).ts ∧
    (pollCycle (Except.ok (some (Obs.mk 1 0 0))) true true true
      (stateJson none 0)).emails =
      (specNotifications none (decide_in_home none
        ((int_trunc (haversine_m ((Obs.mk 1 0 0).lat : ℝ)
          ((Obs.mk 1 0 0).lng : ℝ) (HOME_LAT : ℝ) (HOME_LNG : ℝ))) : ℚ))).map
        (fun m => (m, send_email true true)) :=
  ⟨by decide,
    cycle_notification_policy (Obs.mk 1 0 0) none 0 true true true (by decide)⟩

/-- C8: the decision commits regardless of the notification outcome.  For
an accepted observation (with a working state store), the updated
`{state, timestamp}` is saved and no exception escapes the cycle, for
every email-collaborator behaviour (sent, SMTP failure, or skipped for
missing credentials). -/
theorem cycle_commit_despite_notify_failure (row : Obs) (p : Option Bool)
    (t : ℤ) (e s : Bool) (h : t < row.ts) :
    (pollCycle (Except.ok (some row)) e s true (stateJson p t)).saves =
      [stateJson (some (decide_in_home p
        ((int_trunc (haversine_m (row.lat : ℝ) (row.lng : ℝ) (HOME_LAT : ℝ)
          (HOME_LNG : ℝ))) : ℚ))) row.ts] ∧
    (pollCycle (Except.ok (some row)) e s true (stateJson p t)).err = none := by
  simp only [pollCycle]
  rw [pollCycleD_accepted e s true _ row.ts t p h]
  exact ⟨rfl, rfl⟩

theorem cycle_commit_despite_notify_failure_witness :
    (0 : ℤ) < (Obs.mk 1 0 0).ts ∧
    ((pollCycle (Except.ok (some (Obs.mk 1 0 0))) false false true
      (stateJson (some true) 0)).saves =
      [stateJson (some (decide_in_home (some true)
        ((int_trunc (haversine_m ((Obs.mk 1 0 0).lat : ℝ)
          ((Obs.mk 1 0 0).lng : ℝ) (HOME_LAT : ℝ) (HOME_LNG : ℝ))) : ℚ)))
        (Obs.mk 1 0 0).ts] ∧
    (pollCycle (Except.ok (some (Obs.mk 1 0 0))) false false true
      (stateJson (some true) 0)).err = none) :=
  ⟨by decide,
    cycle_commit_despite_notify_failure (Obs.mk 1 0 0) (some true) 0
      false false (by decide)⟩

/-- The escaping exception of a cycle does not depend on the email
collaborator's behaviour (`send_email` catches its own failures). -/
lemma pollCycleD_err_email_indep (e s e' s' k : Bool) (d ts : ℤ)
    (st : Json) :
    (pollCycleD e s k d ts st).err = (pollCycleD e' s' k d ts st).err := by
  cases st with
  | obj kvs =>
      unfold pollCycleD
      cases hc : pyCmpGt ts ((kvs.lookup "last_ts").getD (Json.num 0)) with
      | error err => simp [hc]
      | ok b => cases b <;> cases k <;> simp [hc]
  | null => rfl
  | bool b => rfl
  | num q => rfl
  | str s2 => rfl

/-- C6 (amended): error containment at the cycle boundary.  A telemetry
fetch failure or an empty fetch is caught and the loop proceeds with
nothing changed; a notification failure never affects whether an
exception escapes; but a persistence failure on an accepted observation
raises out of the loop body (the `try` covers only the fetch) and so
terminates the poll loop. -/
theorem cycle_error_containment (row : Obs) (st : Json) (p : Option Bool)
    (t : ℤ) (e s k e' s' : Bool) :
    pollCycle (Except.error ()) e s k st = ⟨st, [], [], none⟩ ∧
    pollCycle (Except.ok none) e s k st = ⟨st, [], [], none⟩ ∧
    (pollCycle (Except.ok (some row)) e s k st).err =
      (pollCycle (Except.ok (some row)) e' s' k st).err ∧
    (t < row.ts →
      (pollCycle (Except.ok (some row)) e s false (stateJson p t)).err =
        some PyErr.osError) := by
  refine ⟨rfl, rfl, ?_, ?_⟩
  · simp only [pollCycle]
    exact pollCycleD_err_email_indep e s e' s' k _ row.ts st
  · intro h
    simp only [pollCycle]
    rw [pollCycleD_accepted e s false _ row.ts t p h]
    simp

theorem cycle_error_containment_witness :
    (0 : ℤ) < (Obs.mk 1 0 0).ts ∧
    (pollCycle (Except.ok (some (Obs.mk 1 0 0))) true true false
      (stateJson (some false) 0)).err = some PyErr.osError :=
  ⟨by decide,
    (cycle_error_containment (Obs.mk 1 0 0) (stateJson (some false) 0)
      (some false) 0 true true false true true).2.2.2 (by decide)⟩

/-- C6 counterexample: a concrete cycle in which only the state store
fails.  The device sits exactly at the home point, the observation is
fresh, the fetch and the notifier behave; yet the cycle ends with an
uncaught `OSError` (`err ≠ none`), i.e. the persistence failure escapes
the loop body and terminates the poll loop, contradicting the claim that
no collaborator error ever does. -/
theorem cycle_persistence_error_escapes :
    (pollCycle (Except.ok (some (Obs.mk 1 HOME_LAT HOME_LNG))) true true false
      (stateJson (some true) 0)).err = some PyErr.osError := by
  have h0 : int_trunc (haversine_m ((HOME_LAT : ℚ) : ℝ) ((HOME_LNG : ℚ) : ℝ)
      ((HOME_LAT : ℚ) : ℝ) ((HOME_LNG : ℚ) : ℝ)) = 0 := by
    rw [haversine_self]
    simp [int_trunc]
  simp only [pollCycle]
  rw [h0, pollCycleD_accepted true true false 0 1 0 (some true) (by norm_num)]
  simp

/-- C10: `load_state` performs no shape validation.  A state file holding
the well-formed JSON string `"oops"` is returned as-is (not the default
state), and the first poll cycle's `state.get("in_home")` then raises an
`AttributeError` that is outside the per-cycle `try` (which protects only
the telemetry fetch), so it escapes the loop. -/
theorem load_no_shape_validation :
    load_state (FileContent.holds (Json.str "oops")) = Json.str "oops" ∧
    load_state (FileContent.holds (Json.str "oops")) ≠
      load_state FileContent.absent ∧
    ∀ (row : Obs) (e s k : Bool),
      pollCycle (Except.ok (some row)) e s k (Json.str "oops") =
        ⟨Json.str "oops", [], [], some PyErr.attributeError⟩ := by
  refine ⟨rfl, fun h => ?_, fun row e s k => rfl⟩
  have h' : Json.str "oops" =
      Json.obj [("in_home", Json.null), ("last_ts", Json.num 0)] := h
  injection h'

/-- Closed form of the haversine distance between two points on the same
meridian, `δ` degrees of latitude apart (for `0 ≤ δ ≤ 180` the arcsin
inverts the sine exactly). -/
lemma haversine_north (lat1 lon δ : ℝ) (h0 : 0 ≤ δ) (h1 : δ ≤ 180) :
    haversine_m (lat1 + δ) lon lat1 lon = 6371000 * (δ * Real.pi / 180) := by
  have hπ := Real.pi_pos
  have hx0 : 0 ≤ δ * Real.pi / 360 := by positivity
  have hx2 : δ * Real.pi / 360 ≤ Real.pi / 2 := by nlinarith
  have hsin : 0 ≤ Real.sin (δ * Real.pi / 360) :=
    Real.sin_nonneg_of_nonneg_of_le_pi hx0 (by linarith)
  simp only [haversine_m]
  rw [show (6371000.0 : ℝ) = 6371000 by norm_num,
    show (180.0 : ℝ) = 180 by norm_num]
  have e1 : (lat1 - (lat1 + δ)) * (Real.pi / 180) / 2 = -(δ * Real.pi / 360) := by
    ring
  have e2 : (lon - lon) * (Real.pi / 180) / 2 = 0 := by ring
  rw [e1, e2, Real.sin_neg, Real.sin_zero]
  have e3 : (-Real.sin (δ * Real.pi / 360)) ^ 2 +
      Real.cos ((lat1 + δ) * (Real.pi / 180)) *
        Real.cos (lat1 * (Real.pi / 180)) * (0 : ℝ) ^ 2 =
      Real.sin (δ * Real.pi / 360) ^ 2 := by ring
  rw [e3, Real.sqrt_sq hsin, Real.arcsin_sin (by linarith) hx2]
  ring

/-- The concrete observation 0.001353 degrees of latitude due north of the
home point sits strictly between 150 m and 151 m from it. -/
lemma obsC3_distance :
    150 < haversine_m ((34.030123 : ℚ) : ℝ) ((HOME_LNG : ℚ) : ℝ)
      ((HOME_LAT : ℚ) : ℝ) ((HOME_LNG : ℚ) : ℝ) ∧
    haversine_m ((34.030123 : ℚ) : ℝ) ((HOME_LNG : ℚ) : ℝ)
      ((HOME_LAT : ℚ) : ℝ) ((HOME_LNG : ℚ) : ℝ) < 151 := by
  have hcast : ((34.030123 : ℚ) : ℝ) = ((HOME_LAT : ℚ) : ℝ) + 0.001353 := by
    norm_num [HOME_LAT]
  rw [hcast, haversine_north _ _ _ (by norm_num) (by norm_num)]
  constructor
  · have := Real.pi_gt_d6
    nlinarith
  · have := Real.pi_lt_d2
    nlinarith

/-- Python's `int()` of that distance is exactly 150. -/
lemma obsC3_trunc :
    int_trunc (haversine_m ((34.030123 : ℚ) : ℝ) ((HOME_LNG : ℚ) : ℝ)
      ((HOME_LAT : ℚ) : ℝ) ((HOME_LNG : ℚ) : ℝ)) = 150 := by
  obtain ⟨hl, hu⟩ := obsC3_distance
  rw [int_trunc, if_pos (by linarith)]
  refine Int.floor_eq_iff.2 ⟨?_, ?_⟩
  · push_cast
    linarith
  · push_cast
    linarith

/-- C3 counterexample: the presence decision is fed Python's `int()`
truncation of the haversine distance, not the real value.  At this
observation the real distance to home strictly exceeds the exit radius
(150 m), so the claim demands a Home-to-Away transition; but the code
truncates the distance to 150, and the persisted presence stays Home. -/
theorem cycle_real_distance_counterexample :
    (HOME_RADIUS_M + HYSTERESIS_M : ℚ) = 150 ∧
    150 < haversine_m (((34.030123 : ℚ) : ℝ)) ((HOME_LNG : ℚ) : ℝ)
      ((HOME_LAT : ℚ) : ℝ) ((HOME_LNG : ℚ) : ℝ) ∧
    (pollCycle (Except.ok (some (Obs.mk 1 (34.030123 : ℚ) HOME_LNG))) true
      true true (stateJson (some true) 0)).st = stateJson (some true) 1 := by
  refine ⟨by norm_num [HOME_RADIUS_M, HYSTERESIS_M], obsC3_distance.1, ?_⟩
  simp only [pollCycle]
  rw [obsC3_trunc, pollCycleD_accepted true true true 150 1 0 (some true)
    (by norm_num)]
  norm_num [decide_in_home, HOME_RADIUS_M, HYSTERESIS_M]

/-- C3 (amended): for every accepted observation the new persisted
presence is `decide(prev, d)` where `d` is the haversine distance to home
*truncated by Python's `int()`*; the updated state is what gets saved. -/
theorem cycle_decision_truncated (row : Obs) (p : Option Bool) (t : ℤ)
    (e s : Bool) (h : t < row.ts) :
    (pollCycle (Except.ok (some row)) e s true (stateJson p t)).st =
      stateJson (some (decide_in_home p
        ((int_trunc (haversine_m (row.lat : ℝ) (row.lng : ℝ) (HOME_LAT : ℝ)
          (HOME_LNG : ℝ))) : ℚ))) row.ts ∧
    (pollCycle (Except.ok (some row)) e s true (stateJson p t)).saves =
      [stateJson (some (decide_in_home p
        ((int_trunc (haversine_m (row.lat : ℝ) (row.lng : ℝ) (HOME_LAT : ℝ)
          (HOME_LNG : ℝ))) : ℚ))) row.ts] := by
  simp only [pollCycle]
  rw [pollCycleD_accepted e s true _ row.ts t p h]
  exact ⟨rfl, rfl⟩

theorem cycle_decision_truncated_witness :
    (0 : ℤ) < (Obs.mk 1 0 0).ts ∧
    ((pollCycle (Except.ok (some (Obs.mk 1 0 0))) true true true
      (stateJson none 0)).st =
      stateJson (some (decide_in_home none
        ((int_trunc (haversine_m ((Obs.mk 1 0 0).lat : ℝ)
          ((Obs.mk 1 0 0).lng : ℝ) (HOME_LAT : ℝ) (HOME_LNG : ℝ))) : ℚ)))
        (Obs.mk 1 0 0).ts ∧
    (pollCycle (Except.ok (some (Obs.mk 1 0 0))) true true true
      (stateJson none 0)).saves =
      [stateJson (some (decide_in_home none
        ((int_trunc (haversine_m ((Obs.mk 1 0 0).lat : ℝ)
          ((Obs.mk 1 0 0).lng : ℝ) (HOME_LAT : ℝ) (HOME_LNG : ℝ))) : ℚ)))
        (Obs.mk 1 0 0).ts]) :=
  ⟨by decide,
    cycle_decision_truncated (Obs.mk 1 0 0) none 0 true true (by decide)⟩

end HomeAlerts
